import Mathlib

/-!
Shallow embedding of `python_telegram_bot/telegram_bot_enhanced.py`
(class `TelegramBotEnhanced`): the resilient RPC client
`_make_api_request` and the conversation-routing handlers
`handle_message`, `status` and `weather`.

The HTTP transport is modelled as an oracle `Transport : Nat → AttemptOutcome`
giving, for each attempt index, either a response (status code plus the
parsed JSON body, `none` when the body is not valid JSON) or a raised
exception of a given kind.  JSON objects returned by the backend are
modelled as association lists `List (String × String)` (the backend
contract only involves string-valued fields: reply, conversation_id,
title, error).  Handlers return the list of RPC calls they issue and the
list of messages they emit via reply_text, in order.
-/

/-- Configuration constant MAX_RETRIES from the source. -/
def MAX_RETRIES : Nat := 3

/-- Configuration constant RETRY_DELAY (seconds) from the source. -/
def RETRY_DELAY : Nat := 2

/-- Configuration constant REQUEST_TIMEOUT (seconds) from the source. -/
def REQUEST_TIMEOUT : Nat := 30

/-- Base URL of the Go service API. -/
def API_BASE_URL : String := "http://localhost:8080"

/-- A parsed JSON object body: association list of string keys to string
values, mirroring the backend response shape. -/
abbrev Dict := List (String × String)

/-- Python truthiness of a dict: true iff non-empty. -/
def dictTruthy (d : Dict) : Bool := !d.isEmpty

/-- Python membership test for a dict key. -/
def dictContains (d : Dict) (k : String) : Bool := (d.lookup k).isSome

/-- Python dict.get with a default value. -/
def dictGetD (d : Dict) (k dflt : String) : String := (d.lookup k).getD dflt

/-- Kinds of exception the transport library can raise during one attempt:
requests.exceptions.ConnectionError, requests.exceptions.Timeout, or any
other exception (carrying its message). -/
inductive ExcKind where
  | connectionError
  | timeout
  | other (msg : String)
deriving DecidableEq, Repr

/-- Every exception kind the transport raises derives from the Python
class Exception (the requests library raises only Exception subclasses,
and a JSON-decoding failure raises a ValueError, also an Exception), so
each is catchable by an except-Exception clause. -/
def isExceptionSubclass : ExcKind → Bool
  | .connectionError => true
  | .timeout => true
  | .other _ => true

/-- Outcome of a single network attempt: a response with its HTTP status
code and parsed JSON body (`none` when the body fails to parse as JSON,
in which case response.json() raises), or a raised exception. -/
inductive AttemptOutcome where
  | response (code : Nat) (body : Option Dict) (text : String)
  | raised (e : ExcKind)
deriving DecidableEq, Repr

/-- The transport oracle: the outcome the network produces for each
attempt index of one logical request. -/
abbrev Transport := Nat → AttemptOutcome

/-- What the body of the retry loop does with one attempt outcome:
return a value from the function, fall through to the retry/sleep path,
or let an exception escape the handler chain. -/
inductive StepAction where
  | done (r : Option Dict)
  | retry
  | uncaught (e : ExcKind)
deriving DecidableEq, Repr

/-- One iteration of the try/except block of `_make_api_request`:
status 200 returns the parsed JSON (a parse failure raises and is caught
by the except-Exception clause, returning None); status at least 500
falls through to retry; any other status returns None at once; a
ConnectionError or Timeout falls through to retry; any other exception,
if it is an Exception subclass, returns None at once, otherwise it would
escape. -/
def handleAttempt : AttemptOutcome → StepAction
  | .response code body _text =>
      if code = 200 then
        match body with
        | some j => .done (some j)
        | none => .done none
      else if 500 ≤ code then .retry
      else .done none
  | .raised e =>
      if e = .connectionError then .retry
      else if e = .timeout then .retry
      else if isExceptionSubclass e then .done none
      else .uncaught e

/-- Observable outcome of one `_make_api_request` call: the returned
value, the number of attempts performed, the number of sleep(RETRY_DELAY)
calls made, and an exception that escaped to the caller, if any. -/
structure RunStats where
  result : Option Dict
  attempts : Nat
  sleeps : Nat
  uncaughtExc : Option ExcKind
deriving DecidableEq, Repr

/-- The retry loop of `_make_api_request`: iterate attempt indices while
fuel remains (fuel starts at MAX_RETRIES), accumulating the attempt and
sleep counts; sleep only when the current attempt index is below
MAX_RETRIES - 1; when all attempts are exhausted, return None. -/
def apiLoop (tr : Transport) : Nat → Nat → Nat → Nat → RunStats
  | 0, _attempt, att, slp =>
      { result := none, attempts := att, sleeps := slp, uncaughtExc := none }
  | fuel + 1, attempt, att, slp =>
      match handleAttempt (tr attempt) with
      | .done r =>
          { result := r, attempts := att + 1, sleeps := slp, uncaughtExc := none }
      | .uncaught e =>
          { result := none, attempts := att + 1, sleeps := slp, uncaughtExc := some e }
      | .retry =>
          if attempt < MAX_RETRIES - 1 then
            apiLoop tr fuel (attempt + 1) (att + 1) (slp + 1)
          else
            apiLoop tr fuel (attempt + 1) (att + 1) slp

/-- `TelegramBotEnhanced._make_api_request` for a given transport
behaviour. -/
def _make_api_request (tr : Transport) : RunStats :=
  apiLoop tr MAX_RETRIES 0 0 0

/-- The session_metadata object built by the handlers. -/
structure SessionMetadata where
  platform : String
  user_id : String
  chat_id : String
deriving DecidableEq, Repr

/-- JSON payload of a conversation request. -/
structure Payload where
  message : String
  session_metadata : SessionMetadata
deriving DecidableEq, Repr

/-- One RPC call issued through `_make_api_request`. -/
structure ApiCall where
  method : String
  path : String
  body : Option Payload
deriving DecidableEq, Repr

/-- Observable behaviour of one handler invocation: the RPC calls issued
(in order) and the messages emitted via reply_text (in order). -/
structure HandlerRun where
  calls : List ApiCall
  emitted : List String
deriving DecidableEq, Repr

/-- Path of the ContinueConversation RPC. -/
def continueConversationPath : String := "/twirp/acai.chat.ChatService/ContinueConversation"

/-- Path of the StartConversation RPC (present in the backend protocol;
never used by the handlers of this file). -/
def startConversationPath : String := "/twirp/acai.chat.ChatService/StartConversation"

/-- The payload `handle_message` builds: the message text plus
session_metadata with the platform constant and stringified ids. -/
def handleMessagePayload (message_text : String) (user_id chat_id : Int) : Payload :=
  { message := message_text,
    session_metadata :=
      { platform := "telegram",
        user_id := toString user_id,
        chat_id := toString chat_id } }

/-- `TelegramBotEnhanced.handle_message`: build the payload, POST it to
ContinueConversation, then either emit the bot-marked reply (single
reply_text call) or emit an AI-error message. -/
def handle_message (tr : Transport) (message_text : String) (user_id chat_id : Int) :
    HandlerRun :=
  let payload := handleMessagePayload message_text user_id chat_id
  let result := (_make_api_request tr).result
  let emitted :=
    match result with
    | some r =>
        if dictTruthy r && dictContains r "reply" then
          ["🤖 " ++ dictGetD r "reply" ""]
        else
          ["❌ AI Error: " ++ (if dictTruthy r then dictGetD r "error" "Unknown error"
                              else "Connection error")]
    | none => ["❌ AI Error: " ++ "Connection error"]
  { calls := [{ method := "POST", path := continueConversationPath, body := some payload }],
    emitted := emitted }

/-- The operational status text emitted when the health probe yields a
truthy result. -/
def statusOperationalText : String :=
  "📊 **Go AI Assistant System Status:**\n\n🟢 **Service:** Running\n🌐 **API:** Available on localhost:8080\n🤖 **AI:** OpenAI GPT-4\n🌤️ **Weather:** WeatherAPI.com\n💾 **Cache:** Redis\n🗄️ **Database:** MongoDB\n\n✅ System is ready to work!"

/-- The degraded status text emitted otherwise. -/
def statusDegradedText : String :=
  "📊 **Go AI Assistant System Status:**\n\n🔴 **Service:** Unavailable\n❌ **API:** Connection error\n\nMake sure the Go server is running on localhost:8080"

/-- Python truthiness of the Optional[dict] returned by the client. -/
def resultTruthy : Option Dict → Bool
  | none => false
  | some d => dictTruthy d

/-- `TelegramBotEnhanced.status`: GET the root path, emit the operational
text when the result is truthy and the degraded text otherwise. -/
def status (tr : Transport) : HandlerRun :=
  let health_result := (_make_api_request tr).result
  { calls := [{ method := "GET", path := "/", body := none }],
    emitted := [if resultTruthy health_result then statusOperationalText
                else statusDegradedText] }

/-- The usage-error text of the weather command. -/
def weatherUsageText : String := "❌ Please specify a location.\nExample: /weather Barcelona"

/-- The payload `weather` builds: the synthesized weather question plus
session_metadata with the platform constant and stringified ids. -/
def weatherPayload (location : String) (user_id chat_id : Int) : Payload :=
  { message := "What is the weather like in " ++ location ++ "?",
    session_metadata :=
      { platform := "telegram",
        user_id := toString user_id,
        chat_id := toString chat_id } }

/-- `TelegramBotEnhanced.weather`: with no arguments emit the usage text
and make no backend call; otherwise join the arguments into a location,
POST the synthesized question to ContinueConversation, and emit the reply
or a location-specific failure message. -/
def weather (tr : Transport) (args : List String) (user_id chat_id : Int) :
    HandlerRun :=
  if args.isEmpty then
    { calls := [], emitted := [weatherUsageText] }
  else
    let location := String.intercalate " " args
    let payload := weatherPayload location user_id chat_id
    let result := (_make_api_request tr).result
    let emitted :=
      match result with
      | some r =>
          if dictTruthy r && dictContains r "reply" then
            ["🌤️ " ++ dictGetD r "reply" ""]
          else
            ["❌ Failed to get weather for " ++ location]
      | none => ["❌ Failed to get weather for " ++ location]
    { calls := [{ method := "POST", path := continueConversationPath, body := some payload }],
      emitted := emitted }

/-- An attempt outcome that the retry policy classifies as retryable:
HTTP status at least 500, a connection error, or a timeout. -/
def retryableOutcome : AttemptOutcome → Bool
  | .response code _ _ => decide (500 ≤ code)
  | .raised .connectionError => true
  | .raised .timeout => true
  | .raised (.other _) => false

theorem handleAttempt_of_retryable {o : AttemptOutcome}
    (h : retryableOutcome o = true) : handleAttempt o = .retry := by
  cases o with
  | response code body text =>
      simp only [retryableOutcome, decide_eq_true_eq] at h
      have hne : ¬ code = 200 := by omega
      simp [handleAttempt, hne, h]
  | raised e =>
      cases e with
      | connectionError => simp [handleAttempt]
      | timeout => simp [handleAttempt]
      | other msg => simp [retryableOutcome] at h

/-- The constant transport: every attempt produces the same outcome. -/
def constTr (o : AttemptOutcome) : Transport := fun _ => o

theorem handleAttempt_ne_uncaught (o : AttemptOutcome) (e : ExcKind) :
    handleAttempt o ≠ .uncaught e := by
  cases o with
  | response code body text =>
      simp only [handleAttempt]
      split
      · cases body <;> simp
      · split <;> simp
  | raised e2 => cases e2 <;> simp [handleAttempt, isExceptionSubclass]

theorem apiLoop_uncaughtExc_none (tr : Transport) :
    ∀ fuel attempt att slp, (apiLoop tr fuel attempt att slp).uncaughtExc = none := by
  intro fuel
  induction fuel with
  | zero => intro attempt att slp; rfl
  | succ n ih =>
      intro attempt att slp
      simp only [apiLoop]
      cases hA : handleAttempt (tr attempt) with
      | done r => rfl
      | uncaught e => exact absurd hA (handleAttempt_ne_uncaught _ _)
      | retry =>
          by_cases hlt : attempt < MAX_RETRIES - 1
          · simp only [hlt, if_true]; exact ih (attempt + 1) (att + 1) (slp + 1)
          · simp only [hlt, if_false]; exact ih (attempt + 1) (att + 1) slp

theorem botMarker_ne_errorMarker (a b : String) : "🤖 " ++ a ≠ "❌ AI Error: " ++ b := by
  intro h
  have h2 : '🤖' = '❌' := congrArg (fun s => s.data.headD 'A') h
  exact absurd h2 (by decide)

/-- C3: if every attempt yields a retryable failure (HTTP status at least
500, a connection error, or a timeout), `_make_api_request` performs
exactly MAX_RETRIES = 3 attempts, sleeps RETRY_DELAY = 2 seconds between
consecutive attempts (MAX_RETRIES - 1 sleeps), and returns None. -/
theorem c3_retry_bound (tr : Transport) (h : ∀ i, retryableOutcome (tr i) = true) :
    _make_api_request tr =
      { result := none, attempts := MAX_RETRIES, sleeps := MAX_RETRIES - 1,
        uncaughtExc := none } ∧
    MAX_RETRIES = 3 ∧ RETRY_DELAY = 2 := by
  refine ⟨?_, rfl, rfl⟩
  have h0 := handleAttempt_of_retryable (h 0)
  have h1 := handleAttempt_of_retryable (h 1)
  have h2 := handleAttempt_of_retryable (h 2)
  simp [_make_api_request, MAX_RETRIES, apiLoop, h0, h1, h2]

theorem c3_retry_bound_witness :
    _make_api_request (constTr (.response 503 none "")) =
      { result := none, attempts := MAX_RETRIES, sleeps := MAX_RETRIES - 1,
        uncaughtExc := none } ∧
    MAX_RETRIES = 3 ∧ RETRY_DELAY = 2 :=
  c3_retry_bound (constTr (.response 503 none "")) (fun _i => rfl)

/-- C4: for a backend whose response status lies in [400, 500),
`_make_api_request` performs exactly one attempt, sleeps zero times, and
returns None immediately. -/
theorem c4_fast_fail (code : Nat) (body : Option Dict) (text : String)
    (h4 : 400 ≤ code) (h5 : code < 500) :
    _make_api_request (constTr (.response code body text)) =
      { result := none, attempts := 1, sleeps := 0, uncaughtExc := none } := by
  have hne : ¬ code = 200 := by omega
  have hlt : ¬ 500 ≤ code := by omega
  simp [_make_api_request, MAX_RETRIES, apiLoop, constTr, handleAttempt, hne, hlt]

theorem c4_fast_fail_witness :
    _make_api_request (constTr (.response 400 none "")) =
      { result := none, attempts := 1, sleeps := 0, uncaughtExc := none } :=
  c4_fast_fail 400 none "" (by decide) (by decide)

/-- C6: for every transport behaviour, `_make_api_request` lets no
exception escape to its caller: every outcome is returned as a value
(the structured result or None). -/
theorem c6_never_raises (tr : Transport) :
    (_make_api_request tr).uncaughtExc = none ∧
    ((_make_api_request tr).result = none ∨
      ∃ d, (_make_api_request tr).result = some d) := by
  refine ⟨apiLoop_uncaughtExc_none tr MAX_RETRIES 0 0 0, ?_⟩
  cases h : (_make_api_request tr).result with
  | none => exact Or.inl rfl
  | some d => exact Or.inr ⟨d, rfl⟩

/-- C8: the weather command with zero arguments emits the usage-error
message and performs zero backend calls. -/
theorem c8_missing_location (tr : Transport) (user_id chat_id : Int) :
    weather tr [] user_id chat_id = { calls := [], emitted := [weatherUsageText] } := rfl

/-- C9: the session-identity payload built by handle_message and weather
is a pure function of its inputs: the fields are exactly the platform
constant, the decimal string of user_id and the decimal string of
chat_id, identical across both handlers and across repeated calls with
the same inputs. -/
theorem c9_session_identity (message_text location : String) (user_id chat_id : Int) :
    (handleMessagePayload message_text user_id chat_id).session_metadata =
      { platform := "telegram", user_id := toString user_id, chat_id := toString chat_id } ∧
    (weatherPayload location user_id chat_id).session_metadata =
      { platform := "telegram", user_id := toString user_id, chat_id := toString chat_id } ∧
    (handleMessagePayload message_text user_id chat_id).session_metadata =
      (weatherPayload location user_id chat_id).session_metadata ∧
    handleMessagePayload message_text user_id chat_id =
      handleMessagePayload message_text user_id chat_id ∧
    weatherPayload location user_id chat_id = weatherPayload location user_id chat_id :=
  ⟨rfl, rfl, rfl, rfl, rfl⟩

/-- A reply of 9000 characters, used to exercise the long-reply path. -/
def bigReply : String := String.mk (List.replicate 9000 'a')

/-- C1 (counterexample): for a backend reply of 9000 characters,
handle_message emits exactly one message of 9002 characters, not 3
sequential messages of at most 4000 characters each: no splitting of
long replies exists in the code. -/
theorem c1_counterexample :
    bigReply.length = 9000 ∧
    (handle_message (constTr (.response 200 (some [("reply", bigReply)]) "")) "hi" 1 2).emitted =
      ["🤖 " ++ bigReply] ∧
    ("🤖 " ++ bigReply).length = 9002 ∧
    ¬ ((handle_message (constTr (.response 200 (some [("reply", bigReply)]) ""))
          "hi" 1 2).emitted.length = 3 ∧
        ∀ m ∈ (handle_message (constTr (.response 200 (some [("reply", bigReply)]) ""))
          "hi" 1 2).emitted, m.length ≤ 4000) := by
  have hlen : bigReply.length = 9000 := List.length_replicate 9000 'a'
  have hemit : (handle_message (constTr (.response 200 (some [("reply", bigReply)]) ""))
      "hi" 1 2).emitted = ["🤖 " ++ bigReply] := rfl
  refine ⟨hlen, hemit, ?_, ?_⟩
  · rw [String.length_append, hlen]; decide
  · rintro ⟨h3, _⟩
    rw [hemit] at h3
    simp at h3

/-- C1 (amended): handle_message emits the reply as exactly one message,
the bot marker followed by the full reply text, regardless of its
length; no splitting into chunks takes place. -/
theorem c1_single_message (tr : Transport) (message_text : String) (user_id chat_id : Int)
    (r : Dict) (reply : String)
    (h : (_make_api_request tr).result = some r)
    (hr : r.lookup "reply" = some reply) :
    (handle_message tr message_text user_id chat_id).emitted = ["🤖 " ++ reply] ∧
    (handle_message tr message_text user_id chat_id).emitted.length = 1 := by
  have hne : dictTruthy r = true := by
    cases r with
    | nil => simp [List.lookup] at hr
    | cons p t => rfl
  have hemit : (handle_message tr message_text user_id chat_id).emitted =
      ["🤖 " ++ reply] := by
    simp [handle_message, h, hne, dictContains, hr, dictGetD]
  exact ⟨hemit, by rw [hemit]; rfl⟩

theorem c1_single_message_witness :
    (handle_message (constTr (.response 200 (some [("reply", bigReply)]) ""))
      "hi" 1 2).emitted = ["🤖 " ++ bigReply] ∧
    (handle_message (constTr (.response 200 (some [("reply", bigReply)]) ""))
      "hi" 1 2).emitted.length = 1 :=
  c1_single_message (constTr (.response 200 (some [("reply", bigReply)]) "")) "hi" 1 2
    [("reply", bigReply)] bigReply rfl rfl

/-- C2 (counterexample): a 200 response from the health probe whose JSON
body is the empty object yields the degraded status text, not the
operational one: the code tests Python truthiness of the parsed body,
not only the status code. -/
theorem c2_counterexample :
    (_make_api_request (constTr (.response 200 (some []) ""))).result = some [] ∧
    (status (constTr (.response 200 (some []) ""))).emitted = [statusDegradedText] ∧
    statusDegradedText ≠ statusOperationalText :=
  ⟨rfl, rfl, by decide⟩

/-- C2 (amended): a 200 response from the health probe whose body parses
to a non-empty JSON object yields the operational status text; a 200
response with an empty-object body yields the degraded text; a 200
response whose body is not valid JSON yields no result; and whenever the
client returns no result, the degraded text is emitted. -/
theorem c2_health_probe (tr : Transport) (body : Option Dict) (text : String)
    (h : tr 0 = .response 200 body text) :
    (∀ d, body = some d → d ≠ [] → (status tr).emitted = [statusOperationalText]) ∧
    (body = some [] → (status tr).emitted = [statusDegradedText]) ∧
    (body = none → (_make_api_request tr).result = none) ∧
    (∀ tr2 : Transport, (_make_api_request tr2).result = none →
      (status tr2).emitted = [statusDegradedText]) := by
  have hres : (_make_api_request tr).result = body := by
    cases body with
    | none => simp [_make_api_request, MAX_RETRIES, apiLoop, h, handleAttempt]
    | some d => simp [_make_api_request, MAX_RETRIES, apiLoop, h, handleAttempt]
  refine ⟨?_, ?_, ?_, ?_⟩
  · intro d hd hne
    cases d with
    | nil => exact absurd rfl hne
    | cons p t => simp [status, hres, hd, resultTruthy, dictTruthy]
  · intro hd
    simp [status, hres, hd, resultTruthy, dictTruthy]
  · intro hd
    rw [hd] at hres; exact hres
  · intro tr2 h2
    simp [status, h2, resultTruthy]

theorem c2_health_probe_witness :
    (status (constTr (.response 200 (some [("status", "ok")]) ""))).emitted =
      [statusOperationalText] :=
  (c2_health_probe (constTr (.response 200 (some [("status", "ok")]) ""))
      (some [("status", "ok")]) "" rfl).1 [("status", "ok")] rfl (by decide)

/-- C5: a structured result carrying error "quota exceeded" and no reply
makes handle_message emit a message containing "quota exceeded", while
the absence value makes it emit the generic connectivity message, and
the two emitted strings differ. -/
theorem c5_error_distinguishability (tr tr2 : Transport) (message_text : String)
    (user_id chat_id : Int)
    (h1 : (_make_api_request tr).result = some [("error", "quota exceeded")])
    (h2 : (_make_api_request tr2).result = none) :
    (handle_message tr message_text user_id chat_id).emitted =
      ["❌ AI Error: quota exceeded"] ∧
    (∃ a b, "❌ AI Error: quota exceeded" = a ++ "quota exceeded" ++ b) ∧
    (handle_message tr2 message_text user_id chat_id).emitted =
      ["❌ AI Error: Connection error"] ∧
    (handle_message tr message_text user_id chat_id).emitted ≠
      (handle_message tr2 message_text user_id chat_id).emitted := by
  have e1 : (handle_message tr message_text user_id chat_id).emitted =
      ["❌ AI Error: quota exceeded"] := by
    simp only [handle_message, h1]
    decide
  have e2 : (handle_message tr2 message_text user_id chat_id).emitted =
      ["❌ AI Error: Connection error"] := by
    simp only [handle_message, h2]
    decide
  refine ⟨e1, ⟨"❌ AI Error: ", "", by decide⟩, e2, ?_⟩
  rw [e1, e2]; decide

theorem c5_error_distinguishability_witness :
    (handle_message (constTr (.response 200 (some [("error", "quota exceeded")]) ""))
      "m" 1 2).emitted = ["❌ AI Error: quota exceeded"] ∧
    (handle_message (constTr (.response 503 none "")) "m" 1 2).emitted =
      ["❌ AI Error: Connection error"] := by
  have h := c5_error_distinguishability
    (constTr (.response 200 (some [("error", "quota exceeded")]) ""))
    (constTr (.response 503 none "")) "m" 1 2 (by decide) (by decide)
  exact ⟨h.1, h.2.2.1⟩

/-- C7: handle_message, and weather with at least one argument, issue
exactly one RPC call, to the ContinueConversation path, and never call
the StartConversation path. -/
theorem c7_continue_only (tr : Transport) (message_text : String) (args : List String)
    (user_id chat_id : Int) (h : args ≠ []) :
    (handle_message tr message_text user_id chat_id).calls.map ApiCall.path =
      [continueConversationPath] ∧
    (weather tr args user_id chat_id).calls.map ApiCall.path =
      [continueConversationPath] ∧
    startConversationPath ∉
      (handle_message tr message_text user_id chat_id).calls.map ApiCall.path ∧
    startConversationPath ∉ (weather tr args user_id chat_id).calls.map ApiCall.path := by
  have hW : (weather tr args user_id chat_id).calls.map ApiCall.path =
      [continueConversationPath] := by
    cases args with
    | nil => exact absurd rfl h
    | cons a t => simp [weather]
  have hM : (handle_message tr message_text user_id chat_id).calls.map ApiCall.path =
      [continueConversationPath] := rfl
  refine ⟨hM, hW, ?_, ?_⟩
  · rw [hM]; decide
  · rw [hW]; decide

theorem c7_continue_only_witness :
    (handle_message (constTr (.response 503 none "")) "hi" 1 2).calls.map ApiCall.path =
      [continueConversationPath] ∧
    (weather (constTr (.response 503 none "")) ["Barcelona"] 1 2).calls.map ApiCall.path =
      [continueConversationPath] ∧
    startConversationPath ∉
      (handle_message (constTr (.response 503 none "")) "hi" 1 2).calls.map ApiCall.path ∧
    startConversationPath ∉
      (weather (constTr (.response 503 none "")) ["Barcelona"] 1 2).calls.map ApiCall.path :=
  c7_continue_only (constTr (.response 503 none "")) "hi" ["Barcelona"] 1 2 (by decide)

/-- C10: when the structured result contains a reply key, handle_message
takes the success path and emits the bot-marked reply even when the
error field is also set, and no AI-error message is emitted; the
AI-error message appears exactly when the result lacks a reply key or is
the absence value. -/
theorem c10_reply_wins (tr : Transport) (message_text : String) (user_id chat_id : Int) :
    (∀ r reply, (_make_api_request tr).result = some r →
      r.lookup "reply" = some reply →
      (handle_message tr message_text user_id chat_id).emitted = ["🤖 " ++ reply] ∧
      ∀ s, ("❌ AI Error: " ++ s) ∉ (handle_message tr message_text user_id chat_id).emitted) ∧
    (∀ r, (_make_api_request tr).result = some r → r.lookup "reply" = none →
      ∃ s, (handle_message tr message_text user_id chat_id).emitted =
        ["❌ AI Error: " ++ s]) ∧
    ((_make_api_request tr).result = none →
      (handle_message tr message_text user_id chat_id).emitted =
        ["❌ AI Error: " ++ "Connection error"]) := by
  refine ⟨?_, ?_, ?_⟩
  · intro r reply h hr
    have hne : dictTruthy r = true := by
      cases r with
      | nil => simp [List.lookup] at hr
      | cons p t => rfl
    have hemit : (handle_message tr message_text user_id chat_id).emitted =
        ["🤖 " ++ reply] := by
      simp [handle_message, h, hne, dictContains, hr, dictGetD]
    refine ⟨hemit, ?_⟩
    intro s hs
    rw [hemit] at hs
    simp at hs
    exact botMarker_ne_errorMarker reply s hs.symm
  · intro r h hr
    refine ⟨if dictTruthy r then dictGetD r "error" "Unknown error"
            else "Connection error", ?_⟩
    simp [handle_message, h, dictContains, hr]
  · intro h
    simp [handle_message, h]

theorem c10_reply_wins_witness :
    (handle_message (constTr (.response 200 (some [("reply", "hi"), ("error", "bad")]) ""))
      "m" 1 2).emitted = ["🤖 " ++ "hi"] :=
  ((c10_reply_wins (constTr (.response 200 (some [("reply", "hi"), ("error", "bad")]) ""))
      "m" 1 2).1 [("reply", "hi"), ("error", "bad")] "hi" (by decide) (by decide)).1
